import Mathlib

/-!
# Verification of the Concord claim-analysis pipeline

Shallow embedding of the core data model and algorithms of the Concord
backend (evidence extraction, claim generation, analysis, evaluation and
display projection), translated from the Python sources under
`backend/app/`.  Python floats that only ever hold small decimal
constants and their weighted averages are modelled as rationals (`Rat`);
Python dict/set iteration is modelled with insertion-ordered association
lists and `Finset`s as appropriate.
-/

namespace Concord

/-- `ArtifactSource` enum from `claims/claim_model.py`. -/
inductive ArtifactSource where
  | readme
  | api_spec
  | test
  | code
deriving DecidableEq, Repr, Hashable

/-- The `.value` string of each `ArtifactSource` member. -/
def ArtifactSource.value : ArtifactSource → String
  | .readme => "readme"
  | .api_spec => "api_spec"
  | .test => "test"
  | .code => "code"

/-- `ClaimCategory` enum from `claims/claim_model.py`. -/
inductive ClaimCategory where
  | endpoint_exists
  | input_precondition
  | output_guarantee
  | error_semantics
  | idempotency
deriving DecidableEq, Repr, Hashable

/-- The `.value` string of each `ClaimCategory` member. -/
def ClaimCategory.value : ClaimCategory → String
  | .endpoint_exists => "endpoint_exists"
  | .input_precondition => "input_precondition"
  | .output_guarantee => "output_guarantee"
  | .error_semantics => "error_semantics"
  | .idempotency => "idempotency"

/-- `Claim` model from `claims/claim_model.py` (confidence as `Rat`). -/
structure Claim where
  category : ClaimCategory
  endpoint : String
  condition : Option String
  assertion : String
  source : ArtifactSource
  confidence : Rat
deriving DecidableEq, Repr

/-- `Claim.comparison_key` from `claims/claim_model.py`. -/
def Claim.comparison_key (c : Claim) : String × ClaimCategory × Option String :=
  (c.endpoint, c.category, c.condition)

/-- `EvidenceType` enum from `evidence/evidence_model.py`. -/
inductive EvidenceType where
  | test_assertion
  | spec_response
  | spec_parameter
  | readme_statement
  | spec_schema_ref
  | spec_request_body
  | spec_security
deriving DecidableEq, Repr

/-- `Evidence` model from `evidence/evidence_model.py`. -/
structure Evidence where
  type : EvidenceType
  endpoint : String
  observation : String
  source_file : String
  source_location : String
  raw_snippet : Option String
deriving DecidableEq, Repr

/-- `FindingKind` enum from `analysis/analysis_model.py`. -/
inductive FindingKind where
  | contradiction
  | multiple_success_variants
  | confidence_spread
  | unverified
  | missing_tests
  | missing_spec
  | missing_readme
  | implementation_only
  | documentation_only
deriving DecidableEq, Repr

/-- The `details` dict payloads that `analysis.py` actually stores
(Python uses an untyped dict; only these three shapes are ever built).
`variants` comes from a Python set, hence a `Finset`. -/
inductive FindingDetails where
  | assertionGroups (groups : List (String × List String))
  | variants (vs : Finset String)
  | confidenceStats (min_confidence max_confidence spread : Rat)
deriving DecidableEq

/-- `Finding` model from `analysis/analysis_model.py`. -/
structure Finding where
  kind : FindingKind
  description : String
  related_claims : List Claim
  details : Option FindingDetails
deriving DecidableEq

/-- `AnalysisObject` from `analysis/analysis_model.py`. -/
structure AnalysisObject where
  endpoint : String
  category : ClaimCategory
  condition : Option String
  claims : List Claim
  findings : List Finding

/-- `EvaluationObject` from `analysis/analysis_model.py` (scores as `Rat`). -/
structure EvaluationObject where
  endpoint : String
  category : ClaimCategory
  condition : Option String
  claims : List Claim
  findings : List Finding
  coverage_score : Rat
  confidence_score : Rat
  risk_level : String

/-- The set `{c.source for c in bucket}` used throughout analysis/evaluation. -/
def claimSources (bucket : List Claim) : Finset ArtifactSource :=
  (bucket.map (fun c => c.source)).toFinset

/-- `calculate_coverage_score` from `analysis/evaluation.py`:
`len(sources) / 3`. -/
def calculate_coverage_score (sources : Finset ArtifactSource) : Rat :=
  (sources.card : Rat) / 3

/-- The source-reliability weights of `calculate_confidence_score`
(`weights.get(claim.source, 0.5)` gives every other source 0.5). -/
def sourceWeight : ArtifactSource → Rat
  | .test => 1.0
  | .api_spec => 0.9
  | .readme => 0.7
  | .code => 0.5

/-- `calculate_confidence_score` from `analysis/evaluation.py`. -/
def calculate_confidence_score (bucket : List Claim) : Rat :=
  if bucket = [] then 0.0
  else
    let total_weight := (bucket.map (fun c => sourceWeight c.source)).sum
    let weighted_confidence := (bucket.map (fun c => c.confidence * sourceWeight c.source)).sum
    if 0 < total_weight then weighted_confidence / total_weight else 0.0

/-- `determine_risk_level` from `analysis/evaluation.py`.  Python tests the
filtered finding lists for truthiness (non-emptiness). -/
def determine_risk_level (findings : List Finding) (confidence_score coverage_score : Rat) :
    String :=
  let contradiction_findings := findings.filter (fun f => f.kind == FindingKind.contradiction)
  let multiple_variants_findings :=
    findings.filter (fun f => f.kind == FindingKind.multiple_success_variants)
  let documentation_only_findings :=
    findings.filter (fun f => f.kind == FindingKind.documentation_only)
  if contradiction_findings ≠ [] ∨ confidence_score < 0.3 then "critical"
  else if multiple_variants_findings ≠ [] ∨ documentation_only_findings ≠ [] ∨
      confidence_score < 0.5 ∨ coverage_score < 0.5 then "high"
  else if confidence_score < 0.7 ∨ coverage_score < 0.7 then "medium"
  else "low"

/-- The risk ladder as the specification words it (&sect;4.4): critical if any
contradiction finding exists or confidence &lt; 0.3; else high if a
multiple-success-variants or documentation-only finding exists or
confidence &lt; 0.5 or coverage &lt; 0.5; else medium if confidence &lt; 0.7 or
coverage &lt; 0.7; else low. -/
def riskLadderSpec (findings : List Finding) (confidence_score coverage_score : Rat) :
    String :=
  if (∃ f ∈ findings, f.kind = FindingKind.contradiction) ∨ confidence_score < 0.3 then
    "critical"
  else if (∃ f ∈ findings, f.kind = FindingKind.multiple_success_variants) ∨
      (∃ f ∈ findings, f.kind = FindingKind.documentation_only) ∨
      confidence_score < 0.5 ∨ coverage_score < 0.5 then
    "high"
  else if confidence_score < 0.7 ∨ coverage_score < 0.7 then "medium"
  else "low"

/-- `evaluate_bucket` from `analysis/evaluation.py`; `none` models the
`IndexError` that `bucket[0]` raises on an empty bucket. -/
def evaluate_bucket (bucket : List Claim) (findings : List Finding) :
    Option EvaluationObject :=
  match bucket with
  | [] => none
  | c0 :: rest =>
    let bucket := c0 :: rest
    let sources := claimSources bucket
    let coverage_score := calculate_coverage_score sources
    let confidence_score := calculate_confidence_score bucket
    let risk_level := determine_risk_level findings confidence_score coverage_score
    some ⟨c0.endpoint, c0.category, c0.condition, bucket, findings,
      coverage_score, confidence_score, risk_level⟩

theorem filter_kind_ne_nil_iff (findings : List Finding) (k : FindingKind) :
    findings.filter (fun f => f.kind == k) ≠ [] ↔ ∃ f ∈ findings, f.kind = k := by
  rw [ne_eq, List.filter_eq_nil_iff]
  push_neg
  simp

/-- **C2.** `determine_risk_level` is exactly the fixed top-down ladder worded
by the specification, and in particular any bucket with a CONTRADICTION
finding is rated "critical" regardless of its confidence and coverage
scores. -/
theorem C2_risk_ladder (findings : List Finding) (confidence_score coverage_score : Rat) :
    determine_risk_level findings confidence_score coverage_score =
      riskLadderSpec findings confidence_score coverage_score ∧
    ((∃ f ∈ findings, f.kind = FindingKind.contradiction) →
      determine_risk_level findings confidence_score coverage_score = "critical") := by
  have h1 := filter_kind_ne_nil_iff findings FindingKind.contradiction
  have h2 := filter_kind_ne_nil_iff findings FindingKind.multiple_success_variants
  have h3 := filter_kind_ne_nil_iff findings FindingKind.documentation_only
  constructor
  · simp only [determine_risk_level, riskLadderSpec, h1, h2, h3]
  · intro hc
    unfold determine_risk_level
    rw [if_pos (Or.inl (h1.mpr hc))]

/-- Witness for `C2_risk_ladder` at a concrete contradiction finding. -/
theorem C2_risk_ladder_witness :
    determine_risk_level [⟨FindingKind.contradiction, "", [], none⟩] 0.95 1 = "critical" :=
  (C2_risk_ladder [⟨FindingKind.contradiction, "", [], none⟩] 0.95 1).2
    ⟨⟨FindingKind.contradiction, "", [], none⟩, by simp, rfl⟩

/-- **C10.** A non-empty bucket whose claims all share one artifact source has
coverage 1/3 &lt; 0.5, so `evaluate_bucket` rates it "critical" or "high",
never "medium" or "low". -/
theorem C10_single_source_risk (bucket : List Claim) (findings : List Finding)
    (s : ArtifactSource) (hne : bucket ≠ []) (hs : ∀ c ∈ bucket, c.source = s) :
    ∃ e, evaluate_bucket bucket findings = some e ∧
      (e.risk_level = "critical" ∨ e.risk_level = "high") := by
  match bucket, hne with
  | c0 :: rest, _ =>
    refine ⟨_, rfl, ?_⟩
    have hsrc : claimSources (c0 :: rest) = {s} := by
      ext x
      simp only [claimSources, List.mem_toFinset, List.mem_map, Finset.mem_singleton]
      constructor
      · rintro ⟨c, hc, rfl⟩; exact hs c hc
      · rintro rfl; exact ⟨c0, List.mem_cons_self _ _, hs c0 (List.mem_cons_self _ _)⟩
    have hcov : calculate_coverage_score (claimSources (c0 :: rest)) = 1 / 3 := by
      rw [hsrc]; simp [calculate_coverage_score]
    show determine_risk_level findings _ _ = "critical" ∨
      determine_risk_level findings _ _ = "high"
    rw [hcov]
    simp only [determine_risk_level]
    split_ifs with a b c
    · exact Or.inl rfl
    · exact Or.inr rfl
    all_goals exact absurd (Or.inr (Or.inr (Or.inr (by norm_num)))) b

/-- Witness for `C10_single_source_risk` at a concrete one-claim bucket. -/
theorem C10_single_source_risk_witness :
    ∃ e, evaluate_bucket
        [⟨ClaimCategory.output_guarantee, "GET /users", none, "OUT_HTTP_200",
          ArtifactSource.test, 0.9⟩] [] = some e ∧
      (e.risk_level = "critical" ∨ e.risk_level = "high") :=
  C10_single_source_risk
    [⟨ClaimCategory.output_guarantee, "GET /users", none, "OUT_HTTP_200",
      ArtifactSource.test, 0.9⟩] [] ArtifactSource.test (by simp)
    (by intro c hc; simp at hc; rw [hc])

/-! ## Analysis layer (`analysis/analysis.py`) -/

/-- `re.match(r'OUT_HTTP_2\d\x7b2\x7d', assertion)` from
`detect_multiple_success_variants`: the assertion starts with `OUT_HTTP_2`
followed by two digits. -/
def matchesSuccessVariant (s : String) : Bool :=
  match s.toList with
  | 'O' :: 'U' :: 'T' :: '_' :: 'H' :: 'T' :: 'T' :: 'P' :: '_' :: '2' :: d1 :: d2 :: _ =>
    d1.isDigit && d2.isDigit
  | _ => false

/-- The `success_codes` set of `detect_multiple_success_variants`. -/
def successCodes (bucket : List Claim) : Finset String :=
  ((bucket.filter (fun c => matchesSuccessVariant c.assertion)).map
    (fun c => c.assertion)).toFinset

/-- `detect_multiple_success_variants` from `analysis/analysis.py`.
The Python description string sorts the set. -/
def detect_multiple_success_variants (bucket : List Claim) : List Finding :=
  if 1 < (successCodes bucket).card then
    [⟨FindingKind.multiple_success_variants,
      "Multiple success code variants present: " ++
        String.intercalate (", ") ((successCodes bucket).sort (fun a b => a ≤ b)),
      bucket.filter (fun c => decide (c.assertion ∈ successCodes bucket)),
      some (FindingDetails.variants (successCodes bucket))⟩]
  else []

/-- Python `min(xs)` over a non-empty list, as a fold from the head. -/
def pyMin (x : Rat) (xs : List Rat) : Rat := xs.foldl min x

/-- Python `max(xs)` over a non-empty list, as a fold from the head. -/
def pyMax (x : Rat) (xs : List Rat) : Rat := xs.foldl max x

/-- The CONFIDENCE_SPREAD finding built by `detect_confidence_spread` (the
`:.2f` decimal formatting of the description is rendered with
`toString`). -/
def confidenceSpreadFinding (bucket : List Claim) (min_conf max_conf : Rat) : Finding :=
  ⟨FindingKind.confidence_spread,
    "Confidence range: " ++ toString min_conf ++ " to " ++ toString max_conf ++
      " (spread: " ++ toString (max_conf - min_conf) ++ ")",
    bucket,
    some (FindingDetails.confidenceStats min_conf max_conf (max_conf - min_conf))⟩

/-- `detect_confidence_spread` from `analysis/analysis.py`: empty for
buckets of size &lt; 2, otherwise one finding with min/max/spread of the
confidence values (Python `min`/`max` over the non-empty list). -/
def detect_confidence_spread (bucket : List Claim) : List Finding :=
  match bucket with
  | [] => []
  | [_] => []
  | c0 :: c1 :: rest =>
    [confidenceSpreadFinding (c0 :: c1 :: rest)
      (pyMin c0.confidence ((c1 :: rest).map (fun c => c.confidence)))
      (pyMax c0.confidence ((c1 :: rest).map (fun c => c.confidence)))]

/-- One step of a Python `defaultdict` update: find the entry for `key` and
update it in place, or append a fresh entry (Python dicts preserve
insertion order). -/
def groupUpdate {β : Type} (key : String) (upd : β → β) (fresh : β) :
    List (String × β) → List (String × β)
  | [] => [(key, fresh)]
  | (k, v) :: rest =>
    if k = key then (k, upd v) :: rest else (k, v) :: groupUpdate key upd fresh rest

/-- A Python `defaultdict` grouping loop over claims, keyed by `keyOf`. -/
def pyGroupBy {β : Type} (keyOf : Claim → String) (upd : Claim → β → β)
    (fresh : Claim → β) (claims : List Claim) : List (String × β) :=
  claims.foldl (fun m c => groupUpdate (keyOf c) (upd c) (fresh c) m) []

/-- The `assertion_map` of `analyse_bucket`: `defaultdict(list)` with
`assertion_map[claim.assertion].append(claim)`. -/
def assertion_map (bucket : List Claim) : List (String × List Claim) :=
  pyGroupBy (fun c => c.assertion) (fun c l => l ++ [c]) (fun c => [c]) bucket

/-- The CONTRADICTION finding of `analyse_bucket`: description joins the
conflicting assertions (the dict keys, in insertion order), details list
each assertion with the `.value` strings of its supporting sources. -/
def contradictionFinding (bucket : List Claim) : Finding :=
  ⟨FindingKind.contradiction,
    "Multiple distinct assertions: " ++
      String.intercalate (", ") ((assertion_map bucket).map (fun p => p.1)),
    bucket,
    some (FindingDetails.assertionGroups
      ((assertion_map bucket).map (fun p => (p.1, p.2.map (fun c => c.source.value)))))⟩

/-- The CONTRADICTION block of `analyse_bucket` (analysis.py lines 76-92). -/
def contradictionFindings (bucket : List Claim) : List Finding :=
  if 1 < (assertion_map bucket).length then [contradictionFinding bucket]
  else []

/-- The full findings list built by `analyse_bucket`, in emission order
(`sources = {c.source for c in bucket}` is `claimSources bucket`). -/
def bucket_findings (bucket : List Claim) : List Finding :=
  detect_multiple_success_variants bucket ++
  detect_confidence_spread bucket ++
  (if bucket.length = 1 then
    [⟨FindingKind.unverified, "Single artifact source for this behavior", bucket, none⟩]
   else []) ++
  contradictionFindings bucket ++
  (if ArtifactSource.test ∉ claimSources bucket then
    [⟨FindingKind.missing_tests, "No test artifacts assert this behavior", bucket, none⟩]
   else []) ++
  (if ArtifactSource.api_spec ∉ claimSources bucket then
    [⟨FindingKind.missing_spec, "No API specification artifacts assert this behavior",
      bucket, none⟩]
   else []) ++
  (if ArtifactSource.readme ∉ claimSources bucket then
    [⟨FindingKind.missing_readme, "No README documentation asserts this behavior",
      bucket, none⟩]
   else []) ++
  (if claimSources bucket = {ArtifactSource.test} then
    [⟨FindingKind.implementation_only, "Behavior asserted only in test artifacts",
      bucket, none⟩]
   else []) ++
  (if ArtifactSource.test ∉ claimSources bucket ∧
      (claimSources bucket ∩ {ArtifactSource.readme, ArtifactSource.api_spec}).Nonempty then
    [⟨FindingKind.documentation_only, "Behavior asserted only in documentation artifacts",
      bucket, none⟩]
   else [])

/-- `analyse_bucket` from `analysis/analysis.py`; `none` models the
`IndexError` that `bucket[0]` raises on an empty bucket. -/
def analyse_bucket (bucket : List Claim) : Option AnalysisObject :=
  match bucket with
  | [] => none
  | c0 :: rest =>
    some ⟨c0.endpoint, c0.category, c0.condition, c0 :: rest, bucket_findings (c0 :: rest)⟩

/-! ## Display projection (`display/display_processor.py`) -/

/-- `AssertionInfo` from `display/display_model.py` (`sources` is a Python
set). -/
structure AssertionInfo where
  assertion : String
  sources : Finset ArtifactSource
  is_conflicted : Bool
deriving DecidableEq

/-- `AssertionState` from `display/display_model.py`. -/
structure AssertionState where
  assertions : List AssertionInfo
  has_conflicts : Bool
deriving DecidableEq

/-- The `assertion_groups` of `create_assertion_state`: `defaultdict(set)`
with `assertion_groups[claim.assertion].add(claim.source)`. -/
def assertionSourceGroups (claims : List Claim) : List (String × Finset ArtifactSource) :=
  pyGroupBy (fun c => c.assertion) (fun c s => insert c.source s)
    (fun c => {c.source}) claims

/-- `create_assertion_state` from `display/display_processor.py`. -/
def create_assertion_state (claims : List Claim) : AssertionState :=
  let assertion_groups := assertionSourceGroups claims
  let has_conflicts := decide (1 < assertion_groups.length)
  { assertions := assertion_groups.map (fun p => ⟨p.1, p.2, has_conflicts⟩),
    has_conflicts := has_conflicts }

/-! ### Grouping lemmas -/

theorem mem_keys_groupUpdate {β : Type} (key : String) (upd : β → β) (fresh : β)
    (m : List (String × β)) (a : String) :
    a ∈ (groupUpdate key upd fresh m).map Prod.fst ↔ a ∈ m.map Prod.fst ∨ a = key := by
  induction m with
  | nil => simp [groupUpdate]
  | cons p rest ih =>
    obtain ⟨k, v⟩ := p
    by_cases hk : k = key
    · subst hk
      simp [groupUpdate]
      tauto
    · simp [groupUpdate, hk, ih]
      tauto

theorem mem_keys_pyGroupBy {β : Type} (keyOf : Claim → String) (upd : Claim → β → β)
    (fresh : Claim → β) (l : List Claim) (a : String) :
    a ∈ (pyGroupBy keyOf upd fresh l).map Prod.fst ↔ ∃ c ∈ l, keyOf c = a := by
  have aux : ∀ (l : List Claim) (m : List (String × β)),
      a ∈ (l.foldl (fun m c => groupUpdate (keyOf c) (upd c) (fresh c) m) m).map Prod.fst ↔
        a ∈ m.map Prod.fst ∨ ∃ c ∈ l, keyOf c = a := by
    intro l
    induction l with
    | nil => simp
    | cons c rest ih =>
      intro m
      rw [List.foldl_cons, ih, mem_keys_groupUpdate]
      constructor
      · rintro (⟨h | h⟩ | ⟨c', hc', h⟩)
        · exact Or.inl h
        · exact Or.inr ⟨c, List.mem_cons_self _ _, h.symm⟩
        · exact Or.inr ⟨c', List.mem_cons_of_mem _ hc', h⟩
      · rintro (h | ⟨c', hc', h⟩)
        · exact Or.inl (Or.inl h)
        · rcases List.mem_cons.mp hc' with rfl | hc''
          · exact Or.inl (Or.inr h.symm)
          · exact Or.inr ⟨c', hc'', h⟩
  simpa using aux l []

theorem groupUpdate_preserve {β : Type} (key : String) (f : β → β) (fresh : β)
    (P : β → Prop) (hf : ∀ v, P v → P (f v)) :
    ∀ (m : List (String × β)) (a : String),
      (∃ g ∈ m, g.1 = a ∧ P g.2) →
      ∃ g ∈ groupUpdate key f fresh m, g.1 = a ∧ P g.2 := by
  intro m
  induction m with
  | nil => intro a h; simp at h
  | cons p rest ih =>
    intro a h
    obtain ⟨k, v⟩ := p
    obtain ⟨g, hg, hk, hP⟩ := h
    rcases List.mem_cons.mp hg with hgeq | hg'
    · subst hgeq
      by_cases hkey : k = key
      · refine ⟨(k, f v), ?_, hk, hf _ hP⟩
        simp [groupUpdate, hkey]
      · refine ⟨(k, v), ?_, hk, hP⟩
        simp [groupUpdate, hkey]
    · by_cases hkey : k = key
      · refine ⟨g, ?_, hk, hP⟩
        simp only [groupUpdate, if_pos hkey]
        exact List.mem_cons_of_mem _ hg'
      · obtain ⟨g', hg'', hk', hP'⟩ := ih a ⟨g, hg', hk, hP⟩
        refine ⟨g', ?_, hk', hP'⟩
        simp only [groupUpdate, if_neg hkey]
        exact List.mem_cons_of_mem _ hg''

theorem groupUpdate_self {β : Type} (key : String) (f : β → β) (fresh : β)
    (Q : β → Prop) (hfresh : Q fresh) (hf : ∀ v, Q (f v)) (m : List (String × β)) :
    ∃ g ∈ groupUpdate key f fresh m, g.1 = key ∧ Q g.2 := by
  induction m with
  | nil => exact ⟨(key, fresh), by simp [groupUpdate], rfl, hfresh⟩
  | cons p rest ih =>
    obtain ⟨k, v⟩ := p
    by_cases hkey : k = key
    · subst hkey
      refine ⟨(k, f v), ?_, rfl, hf _⟩
      simp [groupUpdate]
    · obtain ⟨g, hg, hk, hQ⟩ := ih
      refine ⟨g, ?_, hk, hQ⟩
      simp only [groupUpdate, if_neg hkey]
      exact List.mem_cons_of_mem _ hg

theorem pyGroupBy_complete {β : Type} (keyOf : Claim → String) (upd : Claim → β → β)
    (fresh : Claim → β) (Q : Claim → β → Prop)
    (hfresh : ∀ c, Q c (fresh c)) (hself : ∀ c v, Q c (upd c v))
    (hpres : ∀ c x v, Q x v → Q x (upd c v)) (l : List Claim) :
    ∀ c ∈ l, ∃ g ∈ pyGroupBy keyOf upd fresh l, g.1 = keyOf c ∧ Q c g.2 := by
  have pres : ∀ (l : List Claim) (m : List (String × β)) (a : String) (x : Claim),
      (∃ g ∈ m, g.1 = a ∧ Q x g.2) →
      ∃ g ∈ l.foldl (fun m c => groupUpdate (keyOf c) (upd c) (fresh c) m) m,
        g.1 = a ∧ Q x g.2 := by
    intro l
    induction l with
    | nil => intro m a x h; simpa using h
    | cons c rest ih =>
      intro m a x h
      rw [List.foldl_cons]
      exact ih _ a x (groupUpdate_preserve _ _ _ _ (fun v => hpres c x v) m a h)
  have aux : ∀ (l : List Claim) (m : List (String × β)) (c : Claim), c ∈ l →
      ∃ g ∈ l.foldl (fun m c => groupUpdate (keyOf c) (upd c) (fresh c) m) m,
        g.1 = keyOf c ∧ Q c g.2 := by
    intro l
    induction l with
    | nil => intro m c h; cases h
    | cons c0 rest ih =>
      intro m c hc
      rw [List.foldl_cons]
      rcases List.mem_cons.mp hc with rfl | hc'
      · exact pres rest _ _ _ (groupUpdate_self _ _ _ (Q c) (hfresh c) (fun v => hself c v) m)
      · exact ih _ c hc'
  intro c hc
  exact aux l [] c hc

theorem one_lt_length_of_two_mem {α : Type} {l : List α} {a b : α} (ha : a ∈ l)
    (hb : b ∈ l) (hab : a ≠ b) : 1 < l.length := by
  match l with
  | [] => cases ha
  | [x] =>
    simp at ha hb
    exact absurd (ha.trans hb.symm) hab
  | x :: y :: rest =>
    simp only [List.length_cons]
    omega

theorem one_lt_assertion_map_length (bucket : List Claim)
    (h : ∃ c1 ∈ bucket, ∃ c2 ∈ bucket, c1.assertion ≠ c2.assertion) :
    1 < (assertion_map bucket).length := by
  obtain ⟨c1, hc1, c2, hc2, hne⟩ := h
  have h1 : c1.assertion ∈ (assertion_map bucket).map Prod.fst :=
    (mem_keys_pyGroupBy _ _ _ bucket c1.assertion).mpr ⟨c1, hc1, rfl⟩
  have h2 : c2.assertion ∈ (assertion_map bucket).map Prod.fst :=
    (mem_keys_pyGroupBy _ _ _ bucket c2.assertion).mpr ⟨c2, hc2, rfl⟩
  have := one_lt_length_of_two_mem h1 h2 hne
  simpa using this

/-- **C1.** A bucket with more than one distinct canonical assertion makes
`analyse_bucket` emit a CONTRADICTION finding whose details list each
assertion with its supporting sources, and `create_assertion_state`
reports `has_conflicts = true` for its claims. -/
theorem C1_contradiction_conflicts (bucket : List Claim)
    (h : ∃ c1 ∈ bucket, ∃ c2 ∈ bucket, c1.assertion ≠ c2.assertion) :
    (∃ obj, analyse_bucket bucket = some obj ∧
      ∃ f ∈ obj.findings, f.kind = FindingKind.contradiction ∧
        f.details = some (FindingDetails.assertionGroups
          ((assertion_map bucket).map (fun p => (p.1, p.2.map (fun c => c.source.value))))) ∧
        ∀ c ∈ bucket, ∃ g ∈ assertion_map bucket, g.1 = c.assertion ∧ c ∈ g.2) ∧
    (create_assertion_state bucket).has_conflicts = true := by
  have hlen := one_lt_assertion_map_length bucket h
  have hlen2 : 1 < (assertionSourceGroups bucket).length := by
    obtain ⟨c1, hc1, c2, hc2, hne⟩ := h
    have h1 : c1.assertion ∈ (assertionSourceGroups bucket).map Prod.fst :=
      (mem_keys_pyGroupBy _ _ _ bucket c1.assertion).mpr ⟨c1, hc1, rfl⟩
    have h2 : c2.assertion ∈ (assertionSourceGroups bucket).map Prod.fst :=
      (mem_keys_pyGroupBy _ _ _ bucket c2.assertion).mpr ⟨c2, hc2, rfl⟩
    have := one_lt_length_of_two_mem h1 h2 hne
    simpa using this
  rcases bucket with _ | ⟨c0, rest⟩
  · simp at h
  · constructor
    · refine ⟨_, rfl, ?_⟩
      refine ⟨contradictionFinding (c0 :: rest), ?_, rfl, rfl, ?_⟩
      · show _ ∈ bucket_findings (c0 :: rest)
        unfold bucket_findings
        refine List.mem_append.mpr (Or.inl (List.mem_append.mpr (Or.inl
          (List.mem_append.mpr (Or.inl (List.mem_append.mpr (Or.inl
            (List.mem_append.mpr (Or.inl (List.mem_append.mpr (Or.inr ?_)))))))))))
        unfold contradictionFindings
        rw [if_pos hlen]
        exact List.mem_singleton.mpr rfl
      · exact pyGroupBy_complete _ _ _ (fun c l => c ∈ l) (fun c => by simp)
          (fun c v => by simp) (fun c x v hx => by simp [hx]) (c0 :: rest)
    · show decide (1 < (assertionSourceGroups (c0 :: rest)).length) = true
      exact decide_eq_true hlen2

/-- The two claims of the specification's conflict-detection example. -/
def conflictClaimTest : Claim :=
  ⟨ClaimCategory.output_guarantee, "GET /users/{id}", none, "OUT_HTTP_200",
    ArtifactSource.test, 0.9⟩

/-- Companion api_spec claim of the conflict-detection example. -/
def conflictClaimSpec : Claim :=
  ⟨ClaimCategory.output_guarantee, "GET /users/{id}", none, "OUT_HTTP_201",
    ArtifactSource.api_spec, 0.9⟩

/-- Witness for `C1_contradiction_conflicts` on the specification's own
example bucket. -/
theorem C1_contradiction_conflicts_witness :
    (∃ obj, analyse_bucket [conflictClaimTest, conflictClaimSpec] = some obj ∧
      ∃ f ∈ obj.findings, f.kind = FindingKind.contradiction ∧
        f.details = some (FindingDetails.assertionGroups
          ((assertion_map [conflictClaimTest, conflictClaimSpec]).map
            (fun p => (p.1, p.2.map (fun c => c.source.value))))) ∧
        ∀ c ∈ [conflictClaimTest, conflictClaimSpec],
          ∃ g ∈ assertion_map [conflictClaimTest, conflictClaimSpec],
            g.1 = c.assertion ∧ c ∈ g.2) ∧
    (create_assertion_state [conflictClaimTest, conflictClaimSpec]).has_conflicts = true :=
  C1_contradiction_conflicts [conflictClaimTest, conflictClaimSpec]
    ⟨conflictClaimTest, by simp, conflictClaimSpec, by simp, by decide⟩

/-! ### C5: coverage completeness -/

/-- A four-source bucket: the three recognized artifact kinds plus a
`code`-source claim (a legal `Claim` value per the data model). -/
def fourSourceBucket : List Claim :=
  [⟨ClaimCategory.output_guarantee, "GET /orders", none, "OUT_HTTP_200",
      ArtifactSource.test, 0.9⟩,
   ⟨ClaimCategory.output_guarantee, "GET /orders", none, "OUT_HTTP_200",
      ArtifactSource.api_spec, 0.9⟩,
   ⟨ClaimCategory.output_guarantee, "GET /orders", none, "OUT_HTTP_200",
      ArtifactSource.readme, 0.7⟩,
   ⟨ClaimCategory.output_guarantee, "GET /orders", none, "OUT_HTTP_200",
      ArtifactSource.code, 0.9⟩]

/-- **C5 counterexample.** `fourSourceBucket` contains claims from all three
recognized artifact sources, yet its coverage score is 4/3, not 1.0:
`calculate_coverage_score` divides the count of *all* distinct sources
(including `code`) by 3. -/
theorem C5_counterexample :
    (ArtifactSource.test ∈ claimSources fourSourceBucket ∧
     ArtifactSource.api_spec ∈ claimSources fourSourceBucket ∧
     ArtifactSource.readme ∈ claimSources fourSourceBucket) ∧
    calculate_coverage_score (claimSources fourSourceBucket) = 4 / 3 ∧
    calculate_coverage_score (claimSources fourSourceBucket) ≠ 1 := by
  have hcard : (claimSources fourSourceBucket).card = 4 := by decide
  refine ⟨by decide, ?_, ?_⟩ <;>
    · rw [calculate_coverage_score, hcard]
      norm_num

theorem bucket_findings_kinds (bucket : List Claim) (f : Finding)
    (hf : f ∈ bucket_findings bucket) :
    f.kind = FindingKind.multiple_success_variants ∨
    f.kind = FindingKind.confidence_spread ∨
    f.kind = FindingKind.unverified ∨
    f.kind = FindingKind.contradiction ∨
    (f.kind = FindingKind.missing_tests ∧ ArtifactSource.test ∉ claimSources bucket) ∨
    (f.kind = FindingKind.missing_spec ∧ ArtifactSource.api_spec ∉ claimSources bucket) ∨
    (f.kind = FindingKind.missing_readme ∧ ArtifactSource.readme ∉ claimSources bucket) ∨
    f.kind = FindingKind.implementation_only ∨
    f.kind = FindingKind.documentation_only := by
  simp only [bucket_findings, List.mem_append] at hf
  rcases hf with ((((((((h | h) | h) | h) | h) | h) | h) | h) | h)
  · left
    unfold detect_multiple_success_variants at h
    split at h
    · rw [List.mem_singleton.mp h]
    · cases h
  · right; left
    unfold detect_confidence_spread at h
    split at h
    · cases h
    · cases h
    · rw [List.mem_singleton.mp h]; rfl
  · right; right; left
    split at h
    · rw [List.mem_singleton.mp h]
    · cases h
  · right; right; right; left
    unfold contradictionFindings at h
    split at h
    · rw [List.mem_singleton.mp h]; rfl
    · cases h
  · right; right; right; right; left
    split at h
    · exact ⟨by rw [List.mem_singleton.mp h], by assumption⟩
    · cases h
  · right; right; right; right; right; left
    split at h
    · exact ⟨by rw [List.mem_singleton.mp h], by assumption⟩
    · cases h
  · right; right; right; right; right; right; left
    split at h
    · exact ⟨by rw [List.mem_singleton.mp h], by assumption⟩
    · cases h
  · right; right; right; right; right; right; right; left
    split at h
    · rw [List.mem_singleton.mp h]
    · cases h
  · right; right; right; right; right; right; right; right
    split at h
    · rw [List.mem_singleton.mp h]
    · cases h

/-- **C5 (amended).** For a non-empty bucket whose claims come only from the
three recognized artifact sources and include all three of them, the
coverage score is exactly 1.0 and no MISSING finding is emitted; in
general the coverage score is the number of distinct claim sources
divided by 3. -/
theorem C5_coverage_completeness (bucket : List Claim)
    (hcode : ∀ c ∈ bucket, c.source ≠ ArtifactSource.code)
    (ht : ∃ c ∈ bucket, c.source = ArtifactSource.test)
    (ha : ∃ c ∈ bucket, c.source = ArtifactSource.api_spec)
    (hr : ∃ c ∈ bucket, c.source = ArtifactSource.readme) :
    calculate_coverage_score (claimSources bucket) = 1 ∧
    (∀ f ∈ bucket_findings bucket,
      f.kind ≠ FindingKind.missing_tests ∧ f.kind ≠ FindingKind.missing_spec ∧
      f.kind ≠ FindingKind.missing_readme) ∧
    (∀ b : List Claim,
      calculate_coverage_score (claimSources b) = ((claimSources b).card : Rat) / 3) := by
  have hmem : ∀ s, (∃ c ∈ bucket, c.source = s) → s ∈ claimSources bucket := by
    rintro s ⟨c, hc, rfl⟩
    simp only [claimSources, List.mem_toFinset, List.mem_map]
    exact ⟨c, hc, rfl⟩
  have htm := hmem _ ht
  have ham := hmem _ ha
  have hrm := hmem _ hr
  refine ⟨?_, ?_, fun b => rfl⟩
  · have hsrc : claimSources bucket =
        {ArtifactSource.test, ArtifactSource.api_spec, ArtifactSource.readme} := by
      ext x
      simp only [Finset.mem_insert, Finset.mem_singleton]
      constructor
      · intro hx
        simp only [claimSources, List.mem_toFinset, List.mem_map] at hx
        obtain ⟨c, hc, rfl⟩ := hx
        cases hx' : c.source with
        | test => exact Or.inl rfl
        | api_spec => exact Or.inr (Or.inl rfl)
        | readme => exact Or.inr (Or.inr rfl)
        | code => exact absurd hx' (hcode c hc)
      · rintro (rfl | rfl | rfl)
        · exact htm
        · exact ham
        · exact hrm
    rw [hsrc]
    have hcard : ({ArtifactSource.test, ArtifactSource.api_spec, ArtifactSource.readme} :
        Finset ArtifactSource).card = 3 := by decide
    rw [calculate_coverage_score, hcard]
    norm_num
  · intro f hf
    rcases bucket_findings_kinds bucket f hf with
      h | h | h | h | ⟨h, hn⟩ | ⟨h, hn⟩ | ⟨h, hn⟩ | h | h
    all_goals first
      | (rw [h]; exact ⟨by decide, by decide, by decide⟩)
      | (exact absurd (by assumption) hn)

/-- Witness claims for the amended C5: one from each recognized source. -/
def threeSourceClaimT : Claim :=
  ⟨ClaimCategory.output_guarantee, "POST /orders", none, "OUT_HTTP_201",
    ArtifactSource.test, 0.9⟩

/-- api_spec member of the C5 witness bucket. -/
def threeSourceClaimA : Claim :=
  ⟨ClaimCategory.output_guarantee, "POST /orders", none, "OUT_HTTP_201",
    ArtifactSource.api_spec, 0.9⟩

/-- readme member of the C5 witness bucket. -/
def threeSourceClaimR : Claim :=
  ⟨ClaimCategory.output_guarantee, "POST /orders", none, "OUT_HTTP_201",
    ArtifactSource.readme, 0.7⟩

/-- Witness bucket for the amended C5. -/
def threeSourceBucket : List Claim :=
  [threeSourceClaimT, threeSourceClaimA, threeSourceClaimR]

/-- Witness for `C5_coverage_completeness` at `threeSourceBucket`. -/
theorem C5_coverage_completeness_witness :
    calculate_coverage_score (claimSources threeSourceBucket) = 1 ∧
    (∀ f ∈ bucket_findings threeSourceBucket,
      f.kind ≠ FindingKind.missing_tests ∧ f.kind ≠ FindingKind.missing_spec ∧
      f.kind ≠ FindingKind.missing_readme) ∧
    (∀ b : List Claim,
      calculate_coverage_score (claimSources b) = ((claimSources b).card : Rat) / 3) :=
  C5_coverage_completeness threeSourceBucket (by decide)
    ⟨threeSourceClaimT, by simp [threeSourceBucket], rfl⟩
    ⟨threeSourceClaimA, by simp [threeSourceBucket], rfl⟩
    ⟨threeSourceClaimR, by simp [threeSourceBucket], rfl⟩

/-! ## Claim equality and hash (`claims/claim_model.py`) -/

/-- `Claim.__eq__`: equality compares the five identity fields and ignores
`confidence` (the non-`Claim` `NotImplemented` branch is ruled out by
typing). -/
def claimEq (a b : Claim) : Bool :=
  a.category == b.category && a.endpoint == b.endpoint && a.condition == b.condition &&
    a.assertion == b.assertion && a.source == b.source

/-- The tuple that `Claim.__hash__` hashes. -/
def claimHashKey (c : Claim) :
    ClaimCategory × String × Option String × String × ArtifactSource :=
  (c.category, c.endpoint, c.condition, c.assertion, c.source)

/-- `Claim.__hash__`: `hash((category, endpoint, condition, assertion,
source))`.  Python's numeric tuple hash is runtime specific; what the code
guarantees, and what is modelled, is that the hash is a pure function of
the five-field tuple. -/
def claimHash (c : Claim) : UInt64 := hash (claimHashKey c)

/-- **C8.** Claim equality holds iff category, endpoint, condition,
assertion and source all match (confidence is ignored), equal claims hash
equal, and changing only the confidence always yields an equal claim. -/
theorem C8_eq_hash_ignore_confidence (a b : Claim) :
    (claimEq a b = true ↔
      (a.category = b.category ∧ a.endpoint = b.endpoint ∧ a.condition = b.condition ∧
       a.assertion = b.assertion ∧ a.source = b.source)) ∧
    (claimEq a b = true → claimHash a = claimHash b) ∧
    (∀ q : Rat, claimEq a { a with confidence := q } = true) := by
  refine ⟨?_, ?_, ?_⟩
  · simp only [claimEq, Bool.and_eq_true, beq_iff_eq]
    tauto
  · intro he
    simp only [claimEq, Bool.and_eq_true, beq_iff_eq] at he
    obtain ⟨⟨⟨⟨h1, h2⟩, h3⟩, h4⟩, h5⟩ := he
    unfold claimHash claimHashKey
    rw [h1, h2, h3, h4, h5]
  · intro q
    simp [claimEq]

/-- A claim used to witness C8. -/
def hashClaimLow : Claim :=
  ⟨ClaimCategory.error_semantics, "GET /users/{id}", some ("USER_NOT_EXISTS"),
    "ERR_HTTP_404", ArtifactSource.test, 0.9⟩

/-- The same claim with a different confidence. -/
def hashClaimHigh : Claim := { hashClaimLow with confidence := 0.5 }

/-- Witness for `C8_eq_hash_ignore_confidence`: two claims differing only in
confidence are equal and hash equal. -/
theorem C8_eq_hash_ignore_confidence_witness :
    claimEq hashClaimLow hashClaimHigh = true ∧
    claimHash hashClaimLow = claimHash hashClaimHigh :=
  ⟨(C8_eq_hash_ignore_confidence hashClaimLow hashClaimHigh).1.mpr
      ⟨rfl, rfl, rfl, rfl, rfl⟩,
   (C8_eq_hash_ignore_confidence hashClaimLow hashClaimHigh).2.1
      ((C8_eq_hash_ignore_confidence hashClaimLow hashClaimHigh).1.mpr
        ⟨rfl, rfl, rfl, rfl, rfl⟩)⟩

/-! ## String scanning utilities (the Python `re` fragments used by the
claim generator and the extractors, implemented directly on `List Char`) -/

/-- The ASCII whitespace class of Python `str.strip` and regex `\s`
(all inputs handled here are ASCII). -/
def isPyWhitespace (c : Char) : Bool :=
  c = ' ' || c = '\t' || c = '\n' || c = '\r' || c = '\x0b' || c = '\x0c'

/-- Python `str.strip()` on a char list. -/
def pyStripList (cs : List Char) : List Char :=
  ((cs.dropWhile isPyWhitespace).reverse.dropWhile isPyWhitespace).reverse

/-- Python `str.strip()`. -/
def pyStrip (s : String) : String := String.mk (pyStripList s.toList)

/-- Python `str.upper()` (ASCII). -/
def pyUpperStr (s : String) : String := String.mk (s.toList.map Char.toUpper)

/-- Case-insensitive literal match: consumes `pat` (case-insensitively) from
the front of the input and returns the rest. -/
def stripMatch : List Char → List Char → Option (List Char)
  | [], cs => some cs
  | _ :: _, [] => none
  | p :: ps, c :: cs => if c.toLower = p.toLower then stripMatch ps cs else none

/-- Case-sensitive literal match, same shape as `stripMatch`. -/
def litMatch : List Char → List Char → Option (List Char)
  | [], cs => some cs
  | _ :: _, [] => none
  | p :: ps, c :: cs => if c = p then litMatch ps cs else none

/-- `re.search` position scan: try the position matcher `f` at every suffix,
left to right. -/
def scanFor {α : Type} (f : List Char → Option α) : List Char → Option α
  | [] => f []
  | c :: cs =>
    match f (c :: cs) with
    | some r => some r
    | none => scanFor f cs

/-- Greedy (`.*`) position scan: try the rightmost position first. -/
def lastScan {α : Type} (f : List Char → Option α) : List Char → Option α
  | [] => f []
  | c :: cs =>
    match lastScan f cs with
    | some r => some r
    | none => f (c :: cs)

/-! ## Claim generator Phase 0 (`DeterministicClaimGenerator._admit`) -/

/-- `ClaimRejection` model from `claims/evidence_to_claim.py`. -/
structure ClaimRejection where
  evidence_id : String
  phase : String
  reason : String
  raw_data : String
deriving DecidableEq, Repr

/-- The HTTP verbs of the Phase-0 admission pattern. -/
def ADMISSION_METHODS : List String :=
  ["GET", "POST", "PUT", "DELETE", "PATCH", "HEAD", "OPTIONS"]

/-- The admission test `re.match(r"^(GET|POST|PUT|DELETE|PATCH|HEAD|OPTIONS)
\s+\/.*", endpoint, re.IGNORECASE)` (one verb, one or more whitespace, a
slash): the verbs are mutually prefix-free, so ordered alternation is a
plain disjunction. -/
def matchesEndpointPattern (cs : List Char) : Bool :=
  ADMISSION_METHODS.any fun m =>
    match stripMatch m.toList cs with
    | none => false
    | some rest =>
      decide (rest.takeWhile isPyWhitespace ≠ []) &&
        (match rest.dropWhile isPyWhitespace with
         | '/' :: _ => true
         | _ => false)

/-- Fuel-indexed worker for `braceSub` (each step consumes at least one input
character, so `cs.length` fuel always suffices; fuel keeps the recursion
structural and kernel-reducible).  When no closing brace remains, no
further match is possible and the rest is returned unchanged. -/
def braceSubAux : Nat → List Char → List Char
  | 0, cs => cs
  | _ + 1, [] => []
  | fuel + 1, '{' :: rest =>
    if '}' ∈ rest then
      '{' :: 'i' :: 'd' :: '}' ::
        braceSubAux fuel (rest.drop ((rest.takeWhile (fun c => c ≠ '}')).length + 1))
    else '{' :: rest
  | fuel + 1, c :: rest => c :: braceSubAux fuel rest

/-- `re.sub` of a brace-delimited segment (regex: open brace, non-brace
characters, close brace) by the literal `{id}` token, non-overlapping and
left to right. -/
def braceSub (cs : List Char) : List Char := braceSubAux cs.length cs

/-- `DeterministicClaimGenerator._admit` (Phase 0): returns the Python
triple `(is_admitted, canonical_endpoint, rejection)`.  The canonical
endpoint is `re.sub(brace segment, id token, endpoint.upper())` of the
stripped endpoint. -/
def admission (ev : Evidence) : Bool × Option String × Option ClaimRejection :=
  if ev.endpoint = "" ∨ pyStrip ev.endpoint = "" then
    (false, none, some ⟨ev.source_location, "P0_ADMISSION", "EMPTY_ENDPOINT", ev.endpoint⟩)
  else if ¬ matchesEndpointPattern (pyStrip ev.endpoint).toList then
    (false, none,
      some ⟨ev.source_location, "P0_ADMISSION", "MALFORMED_ENDPOINT_IDENTITY",
        pyStrip ev.endpoint⟩)
  else
    (true, some (String.mk (braceSub (pyUpperStr (pyStrip ev.endpoint)).toList)), none)

/-- What claim C3 asserts the canonical endpoint to be: only the method
upper-cased, each brace segment replaced by the id token, and the rest of
the path left unchanged. -/
def claimedCanonicalEndpoint (endpoint : String) : String :=
  String.mk ((endpoint.toList.takeWhile (fun c => c ≠ ' ')).map Char.toUpper ++
    braceSub (endpoint.toList.dropWhile (fun c => c ≠ ' ')))

/-- Evidence item exhibiting the C3 counterexample. -/
def lowercasePathEvidence : Evidence :=
  ⟨EvidenceType.test_assertion, "GET /users/{userId}", "observed HTTP 200 in test",
    "test_users.py", "test_get_user [line 10]", none⟩

/-- **C3 counterexample.** `_admit` upper-cases the whole endpoint
(`endpoint.upper()`), not just the method: `GET /users/{userId}` is
admitted with canonical endpoint `GET /USERS/{id}`, while the claim's
normalization (path left unchanged) gives `GET /users/{id}`. -/
theorem C3_counterexample :
    admission lowercasePathEvidence = (true, some ("GET /USERS/{id}"), none) ∧
    claimedCanonicalEndpoint lowercasePathEvidence.endpoint = "GET /users/{id}" ∧
    (admission lowercasePathEvidence).2.1 ≠
      some (claimedCanonicalEndpoint lowercasePathEvidence.endpoint) := by
  refine ⟨by decide, by decide, by decide⟩

/-- The amended normalization: strip the endpoint, upper-case ALL of it
(method and path alike), then replace every brace segment with the id
token. -/
def amendedCanonicalEndpoint (endpoint : String) : String :=
  String.mk (braceSub (pyUpperStr (pyStrip endpoint)).toList)

/-- **C3 (amended).** Every admitted evidence gets as canonical endpoint the
stripped input with the entire endpoint upper-cased and every brace
segment replaced by the literal id token. -/
theorem C3_canonical_endpoint (ev : Evidence) (p : String)
    (h : (admission ev).2.1 = some p) :
    p = amendedCanonicalEndpoint ev.endpoint := by
  unfold admission at h
  split_ifs at h with h1 h2
  exact (Option.some.inj h).symm

/-- Witness for `C3_canonical_endpoint` at the concrete evidence item. -/
theorem C3_canonical_endpoint_witness :
    "GET /USERS/{id}" = amendedCanonicalEndpoint lowercasePathEvidence.endpoint :=
  C3_canonical_endpoint lowercasePathEvidence ("GET /USERS/{id}") (by decide)

/-! ## Claim generator Phase 2
(`DeterministicClaimGenerator.ASSERTION_TEMPLATES` and
`_canonicalize_assertion`) -/

/-- Exactly three digits (regex `\d` three times); returns the captured
digit string (what follows is unconstrained). -/
def digits3 : List Char → Option String
  | a :: b :: c :: _ =>
    if a.isDigit && b.isDigit && c.isDigit then some (String.mk [a, b, c]) else none
  | _ => none

/-- Position matcher for `returns `, an optional greedy `HTTP `, and three
captured digits (when the optional group matches but no digits follow,
the regex backtracks to the bare-digits branch). -/
def tryReturnsHTTP (cs : List Char) : Option String :=
  match stripMatch ("returns ").toList cs with
  | none => none
  | some rest =>
    match stripMatch ("HTTP ").toList rest with
    | some rest2 =>
      match digits3 rest2 with
      | some d => some d
      | none => digits3 rest
    | none => digits3 rest

/-- Position matcher for `observed HTTP `, three captured digits, ` in
test`. -/
def tryObservedInTest (cs : List Char) : Option String :=
  match stripMatch ("observed HTTP ").toList cs with
  | none => none
  | some rest =>
    match digits3 rest with
    | none => none
    | some d =>
      match stripMatch (" in test").toList (rest.drop 3) with
      | none => none
      | some _ => some d

/-- Position matcher for a literal followed by three captured digits. -/
def tryLitDigits (lit : String) (cs : List Char) : Option String :=
  match stripMatch lit.toList cs with
  | none => none
  | some rest => digits3 rest

/-- Case-insensitive substring test: `re.search` of a literal pattern. -/
def containsCI (lit : String) (s : String) : Bool :=
  (scanFor (stripMatch lit.toList) s.toList).isSome

/-- Position matcher for `schema references ` capturing `#/` and greedily
the rest of the line (regex `.` does not cross a newline). -/
def trySchemaRef (cs : List Char) : Option String :=
  match stripMatch ("schema references ").toList cs with
  | none => none
  | some rest =>
    match rest with
    | '#' :: '/' :: tail =>
      some (String.mk ('#' :: '/' :: tail.takeWhile (fun c => c ≠ '\n')))
    | _ => none

/-- The schema-reference transform: `str.replace` of every slash by an
underscore, then of every hash sign by `COMPONENTS`. -/
def schemaRefTransform (g : String) : String :=
  String.mk (((g.toList.map (fun c => if c = '/' then '_' else c)).map
    (fun c => if c = '#' then ("COMPONENTS").toList else [c])).flatten)

/-- A Phase-2 template row: a position-scanned matcher returning the
captured group, and the transform applied to the capture (a
constant-token row ignores its capture). -/
abbrev AssertionTemplate := (String → Option String) × (String → String)

/-- Ordered first-match-wins application of template rows, as in
`_canonicalize_assertion`'s loop. -/
def applyTemplates : List AssertionTemplate → String → Option String
  | [], _ => none
  | (pat, tf) :: rest, s =>
    match pat s with
    | some m => some (tf m)
    | none => applyTemplates rest s

/-- The OUTPUT_GUARANTEE rows of `ASSERTION_TEMPLATES`. -/
def OUT_TEMPLATES : List AssertionTemplate :=
  [ (fun s => scanFor tryReturnsHTTP s.toList, fun d => "OUT_HTTP_" ++ d),
    (fun s => scanFor tryObservedInTest s.toList, fun d => "OUT_HTTP_" ++ d),
    (fun s => scanFor (tryLitDigits ("documents possible response ")) s.toList,
      fun d => "OUT_HTTP_" ++ d),
    (fun s => scanFor (tryLitDigits ("defines response ")) s.toList,
      fun d => "OUT_HTTP_" ++ d),
    (fun s => if containsCI ("json body") s then some ("") else none,
      fun _ => "OUT_RETURNS_JSON"),
    (fun s => scanFor trySchemaRef s.toList,
      fun g => "OUT_SCHEMA_" ++ schemaRefTransform g),
    (fun s => if containsCI ("request body") s then some ("") else none,
      fun _ => "OUT_REQ_BODY_DEFINED"),
    (fun s => if containsCI ("user data") s then some ("") else none,
      fun _ => "OUT_USER_DATA") ]

/-- The ERROR_SEMANTICS rows of `ASSERTION_TEMPLATES`. -/
def ERR_TEMPLATES : List AssertionTemplate :=
  [ (fun s => scanFor tryObservedInTest s.toList, fun d => "ERR_HTTP_" ++ d),
    (fun s => scanFor (tryLitDigits ("documents possible response ")) s.toList,
      fun d => "ERR_HTTP_" ++ d),
    (fun s => scanFor (tryLitDigits ("defines response ")) s.toList,
      fun d => "ERR_HTTP_" ++ d),
    (fun s => scanFor tryReturnsHTTP s.toList, fun d => "ERR_HTTP_" ++ d),
    (fun s => scanFor digits3 s.toList, fun d => "ERR_HTTP_" ++ d),
    (fun s => if containsCI ("not found") s then some ("") else none,
      fun _ => "ERR_TYPE_NOT_FOUND"),
    (fun s => if containsCI ("unauthorized") s then some ("") else none,
      fun _ => "ERR_TYPE_UNAUTHORIZED"),
    (fun s => if containsCI ("invalid") s then some ("") else none,
      fun _ => "ERR_TYPE_INVALID_INPUT"),
    (fun s => if containsCI ("lacks permission") s then some ("") else none,
      fun _ => "ERR_TYPE_FORBIDDEN"),
    (fun s => if containsCI ("already exists") s then some ("") else none,
      fun _ => "ERR_TYPE_CONFLICT") ]

/-- The ASCII word-character class of regex `\w` (the inputs are ASCII). -/
def isWordChar (c : Char) : Bool := c.isAlphanum || c = '_'

/-- The single-quote character (written by code point to keep it out of
string literals). -/
def quoteChar : Char := Char.ofNat 39

/-- Position matcher for `parameter ` followed by one or more captured word
characters (greedy). -/
def tryParameter (cs : List Char) : Option String :=
  match stripMatch ("parameter ").toList cs with
  | none => none
  | some rest =>
    let w := rest.takeWhile isWordChar
    if w.isEmpty then none else some (String.mk w)

/-- Position matcher for `defines parameter `, a quoted non-empty capture,
` in `, and a non-empty word. -/
def tryDefinesParameter (cs : List Char) : Option String :=
  match stripMatch ("defines parameter ").toList cs with
  | none => none
  | some rest =>
    match rest with
    | q :: rest2 =>
      if q = quoteChar then
        let w := rest2.takeWhile (fun c => c ≠ quoteChar)
        if w.isEmpty then none
        else
          match rest2.drop w.length with
          | q2 :: rest3 =>
            if q2 = quoteChar then
              match stripMatch (" in ").toList rest3 with
              | none => none
              | some rest4 =>
                if (rest4.takeWhile isWordChar).isEmpty then none
                else some (String.mk w)
            else none
          | [] => none
      else none
    | [] => none

/-- The INPUT_PRECONDITION rows of `ASSERTION_TEMPLATES`. -/
def PRE_TEMPLATES : List AssertionTemplate :=
  [ (fun s => if containsCI ("requires auth") s then some ("") else none,
      fun _ => "PRE_AUTH_REQUIRED"),
    (fun s => scanFor tryParameter s.toList,
      fun w => "PRE_REQ_PARAM_" ++ pyUpperStr w),
    (fun s => scanFor tryDefinesParameter s.toList,
      fun w => "PRE_REQ_PARAM_" ++ pyUpperStr w),
    (fun s => if containsCI ("request body") s then some ("") else none,
      fun _ => "PRE_REQ_BODY"),
    (fun s => if containsCI ("defines request body") s then some ("") else none,
      fun _ => "PRE_REQ_BODY"),
    (fun s => if containsCI ("authentication") s then some ("") else none,
      fun _ => "PRE_AUTH_REQUIRED") ]

/-- `ASSERTION_TEMPLATES` keyed by category
(`.get(skel.category, [])` gives every other category no rows). -/
def ASSERTION_TEMPLATES (cat : ClaimCategory) : List AssertionTemplate :=
  match cat with
  | .output_guarantee => OUT_TEMPLATES
  | .error_semantics => ERR_TEMPLATES
  | .input_precondition => PRE_TEMPLATES
  | _ => []

/-- `ClaimSkeleton` from `claims/evidence_to_claim.py`. -/
structure ClaimSkeleton where
  category : ClaimCategory
  endpoint : String
  source : ArtifactSource
  raw_observation : String

/-- `DeterministicClaimGenerator._canonicalize_assertion` (Phase 2): the
first matching template wins; no match yields an UNMAPPABLE_OBSERVATION
rejection whose evidence id names the category. -/
def canonicalize_assertion (skel : ClaimSkeleton) :
    Option String × Option ClaimRejection :=
  match applyTemplates (ASSERTION_TEMPLATES skel.category) skel.raw_observation with
  | some t => (some t, none)
  | none =>
    (none, some ⟨"Skel_" ++ skel.category.value, "P2_ASSERTION",
      "UNMAPPABLE_OBSERVATION", skel.raw_observation⟩)

theorem applyTemplates_output_shape (pre : String) (rules : List AssertionTemplate)
    (hrules : ∀ r ∈ rules, ∀ m, ∃ tail, r.2 m = pre ++ tail) :
    ∀ s t, applyTemplates rules s = some t → ∃ tail, t = pre ++ tail := by
  induction rules with
  | nil => intro s t h; cases h
  | cons r rest ih =>
    intro s t h
    obtain ⟨pat, tf⟩ := r
    unfold applyTemplates at h
    cases hp : pat s with
    | some m =>
      rw [hp] at h
      obtain ⟨tail, htail⟩ := hrules (pat, tf) (List.mem_cons_self _ _) m
      exact ⟨tail, by rw [← Option.some.inj h]; exact htail⟩
    | none =>
      rw [hp] at h
      exact ih (fun r hr => hrules r (List.mem_cons_of_mem _ hr)) s t h

theorem OUT_TEMPLATES_shape :
    ∀ r ∈ OUT_TEMPLATES, ∀ m, ∃ tail, r.2 m = "OUT_" ++ tail := by
  intro r hr m
  simp only [OUT_TEMPLATES, List.mem_cons, List.mem_singleton] at hr
  rcases hr with rfl | rfl | rfl | rfl | rfl | rfl | rfl | rfl | h
  · exact ⟨"HTTP_" ++ m, by
      show "OUT_HTTP_" ++ m = "OUT_" ++ ("HTTP_" ++ m)
      rw [← String.append_assoc]
      exact rfl⟩
  · exact ⟨"HTTP_" ++ m, by
      show "OUT_HTTP_" ++ m = "OUT_" ++ ("HTTP_" ++ m)
      rw [← String.append_assoc]
      exact rfl⟩
  · exact ⟨"HTTP_" ++ m, by
      show "OUT_HTTP_" ++ m = "OUT_" ++ ("HTTP_" ++ m)
      rw [← String.append_assoc]
      exact rfl⟩
  · exact ⟨"HTTP_" ++ m, by
      show "OUT_HTTP_" ++ m = "OUT_" ++ ("HTTP_" ++ m)
      rw [← String.append_assoc]
      exact rfl⟩
  · exact ⟨"RETURNS_JSON", rfl⟩
  · exact ⟨"SCHEMA_" ++ schemaRefTransform m, by
      show "OUT_SCHEMA_" ++ schemaRefTransform m = "OUT_" ++ ("SCHEMA_" ++ schemaRefTransform m)
      rw [← String.append_assoc]
      exact rfl⟩
  · exact ⟨"REQ_BODY_DEFINED", rfl⟩
  · exact ⟨"USER_DATA", rfl⟩
  · cases h

theorem ERR_TEMPLATES_shape :
    ∀ r ∈ ERR_TEMPLATES, ∀ m, ∃ tail, r.2 m = "ERR_" ++ tail := by
  intro r hr m
  simp only [ERR_TEMPLATES, List.mem_cons, List.mem_singleton] at hr
  rcases hr with rfl | rfl | rfl | rfl | rfl | rfl | rfl | rfl | rfl | rfl | h
  · exact ⟨"HTTP_" ++ m, by
      show "ERR_HTTP_" ++ m = "ERR_" ++ ("HTTP_" ++ m)
      rw [← String.append_assoc]
      exact rfl⟩
  · exact ⟨"HTTP_" ++ m, by
      show "ERR_HTTP_" ++ m = "ERR_" ++ ("HTTP_" ++ m)
      rw [← String.append_assoc]
      exact rfl⟩
  · exact ⟨"HTTP_" ++ m, by
      show "ERR_HTTP_" ++ m = "ERR_" ++ ("HTTP_" ++ m)
      rw [← String.append_assoc]
      exact rfl⟩
  · exact ⟨"HTTP_" ++ m, by
      show "ERR_HTTP_" ++ m = "ERR_" ++ ("HTTP_" ++ m)
      rw [← String.append_assoc]
      exact rfl⟩
  · exact ⟨"HTTP_" ++ m, by
      show "ERR_HTTP_" ++ m = "ERR_" ++ ("HTTP_" ++ m)
      rw [← String.append_assoc]
      exact rfl⟩
  · exact ⟨"TYPE_NOT_FOUND", rfl⟩
  · exact ⟨"TYPE_UNAUTHORIZED", rfl⟩
  · exact ⟨"TYPE_INVALID_INPUT", rfl⟩
  · exact ⟨"TYPE_FORBIDDEN", rfl⟩
  · exact ⟨"TYPE_CONFLICT", rfl⟩
  · cases h

theorem out_prefix_ne_err_prefix (r r2 : String) : "OUT_" ++ r ≠ "ERR_" ++ r2 := by
  intro h
  have hd := congrArg String.data h
  rw [String.data_append, String.data_append] at hd
  simp at hd

/-- **C4.** Whenever Phase-2 canonicalization succeeds on the same raw
observation under both the output-guarantee and the error-semantics
category, the two tokens carry the distinct namespaces `OUT_` and `ERR_`
and are therefore distinct. -/
theorem C4_namespace_invariant (ep : String) (src : ArtifactSource) (s t1 t2 : String)
    (h1 : (canonicalize_assertion ⟨ClaimCategory.output_guarantee, ep, src, s⟩).1 = some t1)
    (h2 : (canonicalize_assertion ⟨ClaimCategory.error_semantics, ep, src, s⟩).1 = some t2) :
    (∃ r, t1 = "OUT_" ++ r) ∧ (∃ r, t2 = "ERR_" ++ r) ∧ t1 ≠ t2 := by
  have happ1 : applyTemplates OUT_TEMPLATES s = some t1 := by
    unfold canonicalize_assertion at h1
    cases happ : applyTemplates (ASSERTION_TEMPLATES ClaimCategory.output_guarantee) s with
    | some t => rw [happ] at h1; exact happ.trans (congrArg _ (Option.some.inj h1))
    | none => rw [happ] at h1; cases h1
  have happ2 : applyTemplates ERR_TEMPLATES s = some t2 := by
    unfold canonicalize_assertion at h2
    cases happ : applyTemplates (ASSERTION_TEMPLATES ClaimCategory.error_semantics) s with
    | some t => rw [happ] at h2; exact happ.trans (congrArg _ (Option.some.inj h2))
    | none => rw [happ] at h2; cases h2
  obtain ⟨r1, hr1⟩ := applyTemplates_output_shape _ _ OUT_TEMPLATES_shape s t1 happ1
  obtain ⟨r2, hr2⟩ := applyTemplates_output_shape _ _ ERR_TEMPLATES_shape s t2 happ2
  refine ⟨⟨r1, hr1⟩, ⟨r2, hr2⟩, ?_⟩
  rw [hr1, hr2]
  exact out_prefix_ne_err_prefix r1 r2

/-- Witness for `C4_namespace_invariant` on the specification's own example
observation. -/
theorem C4_namespace_invariant_witness :
    (∃ r, "OUT_HTTP_404" = "OUT_" ++ r) ∧ (∃ r, "ERR_HTTP_404" = "ERR_" ++ r) ∧
      "OUT_HTTP_404" ≠ "ERR_HTTP_404" :=
  C4_namespace_invariant "GET /users/{id}" ArtifactSource.test ("returns HTTP 404")
    "OUT_HTTP_404" "ERR_HTTP_404" (by decide) (by decide)

/-! ## Claim generator Phase 3 (`_extract_condition`) and the pipeline
(`DeterministicClaimGenerator.process`) -/

/-- The predicate alternation of the Phase-3 condition pattern, in pattern
order. -/
def CONDITION_PREDICATES : List String :=
  ["is missing", "does not exist", "exists", "is valid", "is authenticated"]

/-- `CONDITION_NORMALIZER` lookup with default `UNKNOWN`. -/
def condition_normalizer (p : String) : String :=
  if p = "is missing" then "NOT_EXISTS"
  else if p = "does not exist" then "NOT_EXISTS"
  else if p = "exists" then "EXISTS"
  else if p = "is valid" then "VALID"
  else if p = "is authenticated" then "AUTH_TRUE"
  else "UNKNOWN"

/-- The subject character class (word characters and whitespace). -/
def isSubjectChar (c : Char) : Bool := isWordChar c || isPyWhitespace c

/-- First predicate of the ordered alternation matching case-insensitively
at this position; the matched text lowercased equals the pattern itself,
which is what Phase 3 passes to the normalizer. -/
def firstPredicateAt : List String → List Char → Option String
  | [], _ => none
  | p :: ps, cs =>
    match stripMatch p.toList cs with
    | some _ => some p
    | none => firstPredicateAt ps cs

/-- Greedy backtracking over the subject length (longest first, regex `+`
semantics): the subject is followed by a space and a predicate. -/
def condGreedy (rest : List Char) : Nat → Option (String × String)
  | 0 => none
  | k + 1 =>
    match rest.drop (k + 1) with
    | ' ' :: tail =>
      match firstPredicateAt CONDITION_PREDICATES tail with
      | some p => some (String.mk (rest.take (k + 1)), p)
      | none => condGreedy rest k
    | _ => condGreedy rest k

/-- Position matcher for the Phase-3 pattern: `if ` or `when `, a greedy
non-empty subject of word/whitespace characters, a space, a predicate. -/
def tryCondition (cs : List Char) : Option (String × String) :=
  match (match stripMatch ("if ").toList cs with
         | some r => some r
         | none => stripMatch ("when ").toList cs) with
  | none => none
  | some rest => condGreedy rest (rest.takeWhile isSubjectChar).length

/-- `_extract_condition`: subject stripped, spaces to underscores,
upper-cased; predicate normalized; joined with an underscore. -/
def extract_condition (raw_text : String) : Option String :=
  match scanFor tryCondition raw_text.toList with
  | none => none
  | some (subject, raw_predicate) =>
    some (String.mk (((pyStripList subject.toList).map
        (fun c => if c = ' ' then '_' else c)).map Char.toUpper) ++
      "_" ++ condition_normalizer raw_predicate)

/-- `DeterministicClaimGenerator.POLICY` (Phase 1 branching). -/
def POLICY : EvidenceType → List ClaimCategory
  | .spec_response => [.output_guarantee, .error_semantics]
  | .spec_security => [.input_precondition]
  | .test_assertion => [.output_guarantee, .error_semantics]
  | .spec_parameter => [.input_precondition]
  | .readme_statement => [.output_guarantee, .error_semantics, .input_precondition]
  | .spec_schema_ref => [.output_guarantee]
  | .spec_request_body => [.input_precondition]

/-- `DeterministicClaimGenerator._determine_source` (the extension-based
fallback is dead code: the seven evidence types are all matched by the
explicit branches). -/
def determine_source (ev : Evidence) : ArtifactSource :=
  match ev.type with
  | .readme_statement => ArtifactSource.readme
  | .spec_response => ArtifactSource.api_spec
  | .spec_parameter => ArtifactSource.api_spec
  | .spec_security => ArtifactSource.api_spec
  | .spec_schema_ref => ArtifactSource.api_spec
  | .spec_request_body => ArtifactSource.api_spec
  | .test_assertion => ArtifactSource.test

/-- The inner Phase 1-4 loop of `process` over the policy categories of one
admitted evidence item, in order (the Python falsiness test `not
assertion` also treats an empty assertion string as a rejection). -/
def processCategories (endpoint : String) (source : ArtifactSource) (obs : String) :
    List ClaimCategory → List Claim × List ClaimRejection
  | [] => ([], [])
  | cat :: cats =>
    let rest := processCategories endpoint source obs cats
    match canonicalize_assertion ⟨cat, endpoint, source, obs⟩ with
    | (none, rejection) => (rest.1, rejection.toList ++ rest.2)
    | (some assertion, rejection) =>
      if assertion = "" then (rest.1, rejection.toList ++ rest.2)
      else
        (⟨cat, endpoint, extract_condition obs, assertion, source,
            if source ≠ ArtifactSource.readme then 0.9 else 0.7⟩ :: rest.1, rest.2)

/-- One `process` loop iteration for one evidence item. -/
def processEvidence (ev : Evidence) : List Claim × List ClaimRejection :=
  match admission ev with
  | (false, _, rejection) => ([], rejection.toList)
  | (true, some canonical_endpoint, _) =>
    processCategories canonical_endpoint (determine_source ev) ev.observation
      (POLICY ev.type)
  | (true, none, _) => ([], [])

/-- `DeterministicClaimGenerator.process`, accumulating emitted claims and
rejections over the evidence list in order. -/
def process : List Evidence → List Claim × List ClaimRejection
  | [] => ([], [])
  | ev :: rest =>
    ((processEvidence ev).1 ++ (process rest).1,
     (processEvidence ev).2 ++ (process rest).2)

theorem POLICY_categories (t : EvidenceType) (cat : ClaimCategory) (h : cat ∈ POLICY t) :
    cat = ClaimCategory.output_guarantee ∨ cat = ClaimCategory.error_semantics ∨
      cat = ClaimCategory.input_precondition := by
  cases t <;> simp [POLICY] at h <;> tauto

theorem processCategories_mem (endpoint : String) (source : ArtifactSource) (obs : String)
    (cats : List ClaimCategory) (c : Claim)
    (hc : c ∈ (processCategories endpoint source obs cats).1) : c.category ∈ cats := by
  induction cats with
  | nil => cases hc
  | cons cat cats ih =>
    simp only [processCategories] at hc
    rcases hcan : canonicalize_assertion ⟨cat, endpoint, source, obs⟩ with ⟨a, r⟩
    rw [hcan] at hc
    match a with
    | none =>
      simp only at hc
      exact List.mem_cons_of_mem _ (ih hc)
    | some s =>
      simp only at hc
      split_ifs at hc
      · exact List.mem_cons_of_mem _ (ih hc)
      · rcases List.mem_cons.mp hc with rfl | hc'
        · exact List.mem_cons_self _ _
        · exact List.mem_cons_of_mem _ (ih hc')
      · rcases List.mem_cons.mp hc with rfl | hc'
        · exact List.mem_cons_self _ _
        · exact List.mem_cons_of_mem _ (ih hc')

theorem processEvidence_categories (ev : Evidence) (c : Claim)
    (hc : c ∈ (processEvidence ev).1) :
    c.category = ClaimCategory.output_guarantee ∨
    c.category = ClaimCategory.error_semantics ∨
    c.category = ClaimCategory.input_precondition := by
  unfold processEvidence at hc
  rcases hadm : admission ev with ⟨b, copt, r⟩
  rw [hadm] at hc
  match b, copt with
  | false, _ => simp only at hc; cases hc
  | true, none => simp only at hc; cases hc
  | true, some ce =>
    simp only at hc
    exact POLICY_categories ev.type c.category (processCategories_mem _ _ _ _ _ hc)

/-- **C9.** Every claim emitted by `DeterministicClaimGenerator.process` has
category output_guarantee, error_semantics or input_precondition; the
endpoint_exists and idempotency categories of the data model are never
produced. -/
theorem C9_generator_categories (evidence_list : List Evidence) (c : Claim)
    (hc : c ∈ (process evidence_list).1) :
    (c.category = ClaimCategory.output_guarantee ∨
     c.category = ClaimCategory.error_semantics ∨
     c.category = ClaimCategory.input_precondition) ∧
    c.category ≠ ClaimCategory.endpoint_exists ∧
    c.category ≠ ClaimCategory.idempotency := by
  have main : ∀ (l : List Evidence) (c : Claim), c ∈ (process l).1 →
      c.category = ClaimCategory.output_guarantee ∨
      c.category = ClaimCategory.error_semantics ∨
      c.category = ClaimCategory.input_precondition := by
    intro l
    induction l with
    | nil => intro c hc; cases hc
    | cons ev rest ih =>
      intro c hc
      simp only [process] at hc
      rcases List.mem_append.mp hc with h | h
      · exact processEvidence_categories ev c h
      · exact ih c h
  have h1 := main evidence_list c hc
  refine ⟨h1, ?_, ?_⟩ <;> rcases h1 with h | h | h <;> simp [h]

/-- Witness evidence item for C9. -/
def witnessTestEvidence : Evidence :=
  ⟨EvidenceType.test_assertion, "GET /users/{id}", "observed HTTP 404 in test",
    "test_users.py", "test_user_missing [line 7]", none⟩

/-- The first claim `process` emits for `witnessTestEvidence`. -/
def witnessOutClaim : Claim :=
  ⟨ClaimCategory.output_guarantee, "GET /USERS/{id}", none, "OUT_HTTP_404",
    ArtifactSource.test, 0.9⟩

/-- The second claim `process` emits for `witnessTestEvidence`. -/
def witnessErrClaim : Claim :=
  ⟨ClaimCategory.error_semantics, "GET /USERS/{id}", none, "ERR_HTTP_404",
    ArtifactSource.test, 0.9⟩

/-- Witness for `C9_generator_categories` at a concrete evidence list. -/
theorem C9_generator_categories_witness :
    (witnessOutClaim.category = ClaimCategory.output_guarantee ∨
     witnessOutClaim.category = ClaimCategory.error_semantics ∨
     witnessOutClaim.category = ClaimCategory.input_precondition) ∧
    witnessOutClaim.category ≠ ClaimCategory.endpoint_exists ∧
    witnessOutClaim.category ≠ ClaimCategory.idempotency :=
  C9_generator_categories [witnessTestEvidence] witnessOutClaim (by
    have h : (process [witnessTestEvidence]).1 = [witnessOutClaim, witnessErrClaim] := rfl
    rw [h]
    exact List.mem_cons_self _ _)

/-! ## README extraction provenance guard
(`ingest/readme_extractor.py`, `extract_readme_evidence` lines 65-87) -/

/-- One item of the semantic-extraction collaborator's response: a JSON
object which may lack keys (hence `Option` fields).  The collaborator is
an external service; its response list is taken as an input here. -/
structure GeminiItem where
  endpoint : Option String
  observation : Option String
  raw_snippet : Option String

/-- Contiguous-sublist search: does `n` occur as a block somewhere in the
scanned list? -/
def subSearch (n : List Char) : List Char → Bool
  | [] => n.isEmpty
  | c :: cs => n.isPrefixOf (c :: cs) || subSearch n cs

/-- Python `needle in haystack` on strings: contiguous substring test. -/
def pySubstring (needle haystack : String) : Bool :=
  subSearch needle.toList haystack.toList

/-- Python `os.path.basename` (POSIX flavor: the part after the last
slash). -/
def pyBasename (p : String) : String :=
  String.mk ((p.toList.reverse.takeWhile (fun c => c ≠ '/')).reverse)

/-- The per-item materialization loop of `extract_readme_evidence` over one
section's collaborator result: items lacking one of the three keys are
skipped, and an item whose `raw_snippet` is not verbatim inside the
section content is skipped (the hard provenance check). -/
def materializeSectionItems (file_path : String) (section_content : String)
    (start_line end_line : Nat) : List GeminiItem → List Evidence
  | [] => []
  | item :: rest =>
    (match item.endpoint, item.observation, item.raw_snippet with
     | some ep, some obs, some snip =>
       if pySubstring snip section_content then
         [⟨EvidenceType.readme_statement, ep, obs, pyBasename file_path,
            "lines " ++ toString start_line ++ "-" ++ toString end_line, some snip⟩]
       else []
     | _, _, _ => []) ++
    materializeSectionItems file_path section_content start_line end_line rest

/-- **C6.** Every README evidence materialized from a collaborator result
carries a `raw_snippet` occurring verbatim in the section content; in
particular an item whose snippet does not occur verbatim yields no
evidence. -/
theorem C6_provenance_guard (file_path section_content : String)
    (start_line end_line : Nat) (result : List GeminiItem) (ev : Evidence)
    (hev : ev ∈ materializeSectionItems file_path section_content start_line
      end_line result) :
    ∃ snip, ev.raw_snippet = some snip ∧ pySubstring snip section_content = true := by
  induction result with
  | nil => cases hev
  | cons item rest ih =>
    unfold materializeSectionItems at hev
    rcases List.mem_append.mp hev with h | h
    · rcases item with ⟨epo, obso, snipo⟩
      match epo, obso, snipo with
      | none, _, _ => cases h
      | some ep, none, _ => cases h
      | some ep, some obs, none => cases h
      | some ep, some obs, some snip =>
        simp only at h
        split_ifs at h with hsub
        · rw [List.mem_singleton.mp h]
          exact ⟨snip, rfl, hsub⟩
        · cases h
    · exact ih h

/-- The collaborator result used to witness C6: one well-formed item whose
snippet occurs verbatim in the section, and one fabricated item whose
snippet does not. -/
def witnessSectionText : String :=
  "## API\nGET /users returns 200 on success"

/-- The verbatim collaborator item of the C6 witness. -/
def witnessGoodItem : GeminiItem :=
  ⟨some ("GET /users"), some ("returns HTTP 200"), some ("returns 200 on success")⟩

/-- The fabricated collaborator item of the C6 witness. -/
def witnessBadItem : GeminiItem :=
  ⟨some ("GET /users"), some ("returns HTTP 500"), some ("returns 500 on failure")⟩

/-- Witness for `C6_provenance_guard`: the evidence materialized from the
witness section carries its verbatim snippet. -/
theorem C6_provenance_guard_witness :
    ∃ snip,
      (⟨EvidenceType.readme_statement, "GET /users", "returns HTTP 200", "README.md",
        "lines 3-4", some ("returns 200 on success")⟩ : Evidence).raw_snippet =
          some snip ∧
      pySubstring snip witnessSectionText = true :=
  C6_provenance_guard "docs/README.md" witnessSectionText 3 4
    [witnessGoodItem, witnessBadItem]
    ⟨EvidenceType.readme_statement, "GET /users", "returns HTTP 200", "README.md",
      "lines 3-4", some ("returns 200 on success")⟩
    (by decide)

/-! ## Test extractor (`ingest/test_extractor.py`) -/

/-- One-or-more captured digits (greedy regex `\d+`), with the rest. -/
def digitsRun (cs : List Char) : Option (String × List Char) :=
  let d := cs.takeWhile Char.isDigit
  if d.isEmpty then none else some (String.mk d, cs.drop d.length)

/-- Matcher for `status_code`, optional whitespace, `==`, optional
whitespace, captured digits. -/
def tryStatusEq (cs : List Char) : Option String :=
  match litMatch ("status_code").toList cs with
  | none => none
  | some r1 =>
    match litMatch ("==").toList (r1.dropWhile isPyWhitespace) with
    | none => none
    | some r2 =>
      match digitsRun (r2.dropWhile isPyWhitespace) with
      | none => none
      | some (d, _) => some d

/-- Position matcher for assert-pattern 1: `assert`, one or more whitespace
characters, greedily anything, then the status-code equality (the lines
scanned contain no newline, so the regex dot is unrestricted here). -/
def tryAssertP1 (cs : List Char) : Option String :=
  match litMatch ("assert").toList cs with
  | none => none
  | some r1 =>
    if (r1.takeWhile isPyWhitespace).isEmpty then none
    else lastScan tryStatusEq (r1.dropWhile isPyWhitespace)

/-- Position matcher for assert-pattern 2: `response.` then the status-code
equality. -/
def tryAssertP2 (cs : List Char) : Option String :=
  match litMatch ("response.").toList cs with
  | none => none
  | some r1 => tryStatusEq r1

/-- Position matcher for assert-patterns 3/4: the call literal, a comma-free
segment containing `status_code`, a comma, optional whitespace, captured
digits, a closing parenthesis. -/
def tryAssertEqualCall (lit : String) (cs : List Char) : Option String :=
  match litMatch lit.toList cs with
  | none => none
  | some r1 =>
    let seg := r1.takeWhile (fun c => c ≠ ',')
    if subSearch ("status_code").toList seg then
      match r1.drop seg.length with
      | ',' :: r2 =>
        match digitsRun (r2.dropWhile isPyWhitespace) with
        | none => none
        | some (d, r4) =>
          match r4 with
          | ')' :: _ => some d
          | _ => none
      | _ => none
    else none

/-- Matcher for `toBe(` with captured digits and closing parenthesis. -/
def tryToBe (cs : List Char) : Option String :=
  match litMatch ("toBe(").toList cs with
  | none => none
  | some r1 =>
    match digitsRun r1 with
    | none => none
    | some (d, r2) =>
      match r2 with
      | ')' :: _ => some d
      | _ => none

/-- Matcher for `status` followed (greedily) by a `toBe` call. -/
def tryStatusThenToBe (cs : List Char) : Option String :=
  match litMatch ("status").toList cs with
  | none => none
  | some r1 => lastScan tryToBe r1

/-- Position matcher for assert-pattern 5: `expect`, greedily anything,
`status`, greedily anything, a `toBe` call. -/
def tryAssertP5 (cs : List Char) : Option String :=
  match litMatch ("expect").toList cs with
  | none => none
  | some r1 => lastScan tryStatusThenToBe r1

/-- `ASSERT_PATTERNS` from `ingest/test_extractor.py`, in order; each is
`pattern.search` over the line. -/
def ASSERT_PATTERNS : List (String → Option String) :=
  [ fun line => scanFor tryAssertP1 line.toList,
    fun line => scanFor tryAssertP2 line.toList,
    fun line => scanFor (tryAssertEqualCall ("assertEqual(")) line.toList,
    fun line => scanFor (tryAssertEqualCall ("assertEquals(")) line.toList,
    fun line => scanFor tryAssertP5 line.toList ]

/-- The pattern loop of the extractor: first pattern matching the line
wins. -/
def firstAssertMatch : List (String → Option String) → String → Option String
  | [], _ => none
  | p :: ps, line =>
    match p line with
    | some d => some d
    | none => firstAssertMatch ps line

/-- The ASCII word-character class `[a-zA-Z0-9_]` of `TEST_DEF_PATTERN`. -/
def isAsciiWordChar (c : Char) : Bool :=
  ('a' ≤ c && c ≤ 'z') || ('A' ≤ c && c ≤ 'Z') || c.isDigit || c = '_'

/-- `TEST_DEF_PATTERN.match(line)` (anchored, case-sensitive): `def`, one or
more whitespace, the captured `test_`-prefixed name, optional whitespace,
an opening parenthesis. -/
def testDefMatch (cs : List Char) : Option String :=
  match litMatch ("def").toList cs with
  | none => none
  | some r1 =>
    if (r1.takeWhile isPyWhitespace).isEmpty then none
    else
      match litMatch ("test_").toList (r1.dropWhile isPyWhitespace) with
      | none => none
      | some r2 =>
        let w := r2.takeWhile isAsciiWordChar
        if w.isEmpty then none
        else
          match (r2.drop w.length).dropWhile isPyWhitespace with
          | '(' :: _ => some ("test_" ++ String.mk w)
          | _ => none

/-- The method alternation of `REQUEST_PATTERN`, in order; the verbs are
mutually prefix-free, and the capture is the as-matched input text. -/
def REQUEST_METHODS : List String := ["get", "post", "put", "delete", "patch"]

/-- Try each request verb case-insensitively at this position. -/
def methodAlternation : List String → List Char → Option (String × List Char)
  | [], _ => none
  | m :: ms, cs =>
    match stripMatch m.toList cs with
    | some rest => some (String.mk (cs.take m.length), rest)
    | none => methodAlternation ms cs

/-- Either quote character of the `REQUEST_PATTERN` URL group. -/
def isQuote (c : Char) : Bool := c = '"' || c = quoteChar

/-- Position matcher for `REQUEST_PATTERN` (case-insensitive): `requests` or
`client`, a dot, a verb, an opening parenthesis, optional whitespace, a
quote, the captured non-quote URL, a quote. -/
def tryRequestCall (cs : List Char) : Option (String × String) :=
  match (match stripMatch ("requests").toList cs with
         | some r => some r
         | none => stripMatch ("client").toList cs) with
  | none => none
  | some r1 =>
    match r1 with
    | '.' :: r2 =>
      match methodAlternation REQUEST_METHODS r2 with
      | none => none
      | some (mtd, r3) =>
        match r3 with
        | '(' :: r4 =>
          match r4.dropWhile isPyWhitespace with
          | q :: r5 =>
            if isQuote q then
              let url := r5.takeWhile (fun c => !(isQuote c))
              if url.isEmpty then none
              else
                match r5.drop url.length with
                | q2 :: _ => if isQuote q2 then some (mtd, String.mk url) else none
                | [] => none
            else none
          | [] => none
        | _ => none
    | _ => none

/-- `REQUEST_PATTERN.search(line)`. -/
def requestSearch (line : String) : Option (String × String) :=
  scanFor tryRequestCall line.toList

/-- Fuel-indexed worker stripping every brace group whose inside contains
`base_url` (fuel keeps the recursion structural; each step consumes at
least one character). -/
def stripBaseUrlAux : Nat → List Char → List Char
  | 0, cs => cs
  | _ + 1, [] => []
  | fuel + 1, '{' :: rest =>
    if ('}' ∈ rest) ∧
        subSearch (("base_url").toList) (rest.takeWhile (fun c => c ≠ '}')) = true then
      stripBaseUrlAux fuel (rest.drop ((rest.takeWhile (fun c => c ≠ '}')).length + 1))
    else '{' :: stripBaseUrlAux fuel rest
  | fuel + 1, c :: rest => c :: stripBaseUrlAux fuel rest

/-- `re.sub` deleting f-string base_url references from the path. -/
def stripBaseUrlBraces (cs : List Char) : List Char := stripBaseUrlAux cs.length cs

/-- After `http` or `https`: `://` and a non-empty host (up to a slash);
returns what follows the host. -/
def hostStrip (r : List Char) : Option (List Char) :=
  match litMatch ("://").toList r with
  | none => none
  | some r2 =>
    let host := r2.takeWhile (fun c => c ≠ '/')
    if host.isEmpty then none else some (r2.drop host.length)

/-- The anchored scheme/host strip of `normalize_path` (`https?` tries the
`s` greedily first). -/
def stripSchemeHost (cs : List Char) : List Char :=
  match litMatch ("http").toList cs with
  | none => cs
  | some r1 =>
    match r1 with
    | 's' :: t =>
      match hostStrip t with
      | some r => r
      | none => (match hostStrip r1 with | some r => r | none => cs)
    | _ => (match hostStrip r1 with | some r => r | none => cs)

/-- The regex hex-digit class `[0-9a-fA-F]`. -/
def hexDigit (c : Char) : Bool :=
  c.isDigit || ('a' ≤ c && c ≤ 'f') || ('A' ≤ c && c ≤ 'F')

/-- Exactly `n` hex digits; returns the rest. -/
def hexRun : Nat → List Char → Option (List Char)
  | 0, cs => some cs
  | n + 1, c :: cs => if hexDigit c then hexRun n cs else none
  | _ + 1, [] => none

/-- The 8-4-4-4-12 UUID shape (36 characters) at this position. -/
def uuidCheck (cs : List Char) : Bool :=
  (do
    let r1 ← hexRun 8 cs
    let r2 ← (match r1 with | '-' :: t => some t | _ => none)
    let r3 ← hexRun 4 r2
    let r4 ← (match r3 with | '-' :: t => some t | _ => none)
    let r5 ← hexRun 4 r4
    let r6 ← (match r5 with | '-' :: t => some t | _ => none)
    let r7 ← hexRun 4 r6
    let r8 ← (match r7 with | '-' :: t => some t | _ => none)
    let _ ← hexRun 12 r8
    some ()).isSome

/-- Fuel-indexed worker replacing `/UUID` by the slash-id token. -/
def replaceUUIDsAux : Nat → List Char → List Char
  | 0, cs => cs
  | _ + 1, [] => []
  | fuel + 1, '/' :: rest =>
    if uuidCheck rest then
      '/' :: '{' :: 'i' :: 'd' :: '}' :: replaceUUIDsAux fuel (rest.drop 36)
    else '/' :: replaceUUIDsAux fuel rest
  | fuel + 1, c :: rest => c :: replaceUUIDsAux fuel rest

/-- The UUID substitution of `normalize_path`. -/
def replaceUUIDs (cs : List Char) : List Char := replaceUUIDsAux cs.length cs

/-- Fuel-indexed worker replacing each slash-digits segment by the slash-id
token. -/
def replaceNumericAux : Nat → List Char → List Char
  | 0, cs => cs
  | _ + 1, [] => []
  | fuel + 1, '/' :: rest =>
    let d := rest.takeWhile Char.isDigit
    if d.isEmpty then '/' :: replaceNumericAux fuel rest
    else '/' :: '{' :: 'i' :: 'd' :: '}' :: replaceNumericAux fuel (rest.drop d.length)
  | fuel + 1, c :: rest => c :: replaceNumericAux fuel rest

/-- The numeric-segment substitution of `normalize_path`. -/
def replaceNumericSegments (cs : List Char) : List Char := replaceNumericAux cs.length cs

/-- Fuel-indexed worker collapsing runs of slashes to one slash. -/
def collapseSlashesAux : Nat → List Char → List Char
  | 0, cs => cs
  | _ + 1, [] => []
  | fuel + 1, '/' :: rest =>
    '/' :: collapseSlashesAux fuel (rest.dropWhile (fun c => c = '/'))
  | fuel + 1, c :: rest => c :: collapseSlashesAux fuel rest

/-- The double-slash cleanup of `normalize_path`. -/
def collapseSlashes (cs : List Char) : List Char := collapseSlashesAux cs.length cs

/-- `normalize_path` from `ingest/test_extractor.py`, in source order:
strip base_url f-string references, strip scheme and host, strip the
query string, replace UUID segments, replace numeric segments, ensure a
leading slash, collapse slash runs. -/
def normalize_path (path : String) : String :=
  let p1 := stripBaseUrlBraces path.toList
  let p2 := stripSchemeHost p1
  let p3 := p2.takeWhile (fun c => c ≠ '?')
  let p4 := replaceUUIDs p3
  let p5 := replaceNumericSegments p4
  let p6 := match p5 with
            | '/' :: _ => p5
            | _ => '/' :: p5
  String.mk (collapseSlashes p6)

/-- `MAX_ASSERT_DISTANCE` from `ingest/test_extractor.py` (in lines). -/
def MAX_ASSERT_DISTANCE : Nat := 5

/-- `TestContext` from `ingest/test_extractor.py`. -/
structure TestContext where
  name : String
  start_line : Nat
  current_endpoint : Option String
  last_request_line : Option Nat
deriving DecidableEq, Repr

/-- The mutable state of `extract_test_evidence`'s scanning loop. -/
structure ScanState where
  evidence_list : List Evidence
  seen_evidence : List (String × String × String × Nat)
  current_test : Option TestContext
deriving DecidableEq, Repr

/-- One iteration of `extract_test_evidence`'s loop over `(line_num,
raw_line)`: detect a test-function header, else a request call, else an
assertion guarded by the current endpoint, the proximity check, and the
seen-evidence set; a successful attribution appends evidence and clears
the current endpoint and request line. -/
def step (file_path : String) (st : ScanState) (line_num : Nat) (raw_line : String) :
    ScanState :=
  match testDefMatch (pyStrip raw_line).toList with
  | some test_name =>
    { st with current_test := some ⟨test_name, line_num, none, none⟩ }
  | none =>
    match st.current_test with
    | none => st
    | some ctx =>
      match requestSearch (pyStrip raw_line) with
      | some (mtd, url_expr) =>
        { st with current_test := some { ctx with
            current_endpoint := some (pyUpperStr mtd ++ " " ++ normalize_path url_expr),
            last_request_line := some line_num } }
      | none =>
        match ctx.current_endpoint with
        | none => st
        | some ep =>
          match ctx.last_request_line with
          | none => st
          | some r =>
            if line_num - r > MAX_ASSERT_DISTANCE then st
            else
              match firstAssertMatch ASSERT_PATTERNS (pyStrip raw_line) with
              | none => st
              | some status_code =>
                if (ep, status_code, ctx.name, line_num) ∈ st.seen_evidence then st
                else
                  { evidence_list := st.evidence_list ++
                      [⟨EvidenceType.test_assertion, ep,
                        "observed HTTP " ++ status_code ++ " in test",
                        pyBasename file_path,
                        ctx.name ++ " [line " ++ toString line_num ++ "]",
                        some (pyStrip raw_line)⟩],
                    seen_evidence := st.seen_evidence ++
                      [(ep, status_code, ctx.name, line_num)],
                    current_test := some { ctx with
                      current_endpoint := none, last_request_line := none } }

/-- Python `str.splitlines` restricted to newline separators (the texts fed
here are newline-separated). -/
def pySplitlines (s : String) : List String :=
  if s = "" then []
  else
    let parts := s.splitOn "\n"
    if parts.getLast? = some "" then parts.dropLast else parts

/-- `extract_test_evidence` from `ingest/test_extractor.py`: fold the
scanning step over the 1-numbered lines, starting with no current test. -/
def extract_test_evidence (file_path : String) (content : String) : List Evidence :=
  ((List.enumFrom 1 (pySplitlines content)).foldl
    (fun st p => step file_path st p.1 p.2) ⟨[], [], none⟩).evidence_list

/-- **C7.** Proximity guard and post-attribution reset of the test
extractor: on a line that opens no test function and makes no request
call, (i) an assertion farther than MAX_ASSERT_DISTANCE lines from the
last request call leaves the state unchanged, (ii) with no current
endpoint nothing is attributed, and (iii) whenever the step emits
evidence it clears the current endpoint and request line, so a second
assertion with no intervening request is not attributed either. -/
theorem C7_proximity_and_reset (file_path line : String) (st : ScanState)
    (ctx : TestContext) (line_num : Nat)
    (hctx : st.current_test = some ctx)
    (hdef : testDefMatch (pyStrip line).toList = none)
    (hreq : requestSearch (pyStrip line) = none) :
    (∀ r, ctx.last_request_line = some r →
        line_num - r > MAX_ASSERT_DISTANCE → step file_path st line_num line = st) ∧
    (ctx.current_endpoint = none → step file_path st line_num line = st) ∧
    (∀ st', step file_path st line_num line = st' →
        st'.evidence_list ≠ st.evidence_list →
        ∃ ctx', st'.current_test = some ctx' ∧ ctx'.current_endpoint = none ∧
          ctx'.last_request_line = none) := by
  refine ⟨?_, ?_, ?_⟩
  · intro r hr hdist
    cases hep : ctx.current_endpoint with
    | none => simp only [step, hdef, hctx, hreq, hep]
    | some ep => simp only [step, hdef, hctx, hreq, hep, hr, if_pos hdist]
  · intro hep
    simp only [step, hdef, hctx, hreq, hep]
  · intro st' hstep hne
    subst hstep
    cases hep : ctx.current_endpoint with
    | none =>
      have hst : step file_path st line_num line = st := by
        simp only [step, hdef, hctx, hreq, hep]
      rw [hst] at hne
      exact absurd rfl hne
    | some ep =>
      cases hrl : ctx.last_request_line with
      | none =>
        have hst : step file_path st line_num line = st := by
          simp only [step, hdef, hctx, hreq, hep, hrl]
        rw [hst] at hne
        exact absurd rfl hne
      | some r =>
        by_cases hdist : line_num - r > MAX_ASSERT_DISTANCE
        · have hst : step file_path st line_num line = st := by
            simp only [step, hdef, hctx, hreq, hep, hrl, if_pos hdist]
          rw [hst] at hne
          exact absurd rfl hne
        · cases hmatch : firstAssertMatch ASSERT_PATTERNS (pyStrip line) with
          | none =>
            have hst : step file_path st line_num line = st := by
              simp only [step, hdef, hctx, hreq, hep, hrl, if_neg hdist, hmatch]
            rw [hst] at hne
            exact absurd rfl hne
          | some status_code =>
            by_cases hseen : (ep, status_code, ctx.name, line_num) ∈ st.seen_evidence
            · have hst : step file_path st line_num line = st := by
                simp only [step, hdef, hctx, hreq, hep, hrl, if_neg hdist, hmatch,
                  if_pos hseen]
              rw [hst] at hne
              exact absurd rfl hne
            · refine ⟨{ ctx with current_endpoint := none, last_request_line := none },
                ?_, rfl, rfl⟩
              simp only [step, hdef, hctx, hreq, hep, hrl, if_neg hdist, hmatch,
                if_neg hseen]

/-- The scan state used to witness C7: inside `test_a`, request recorded at
line 1. -/
def witnessScanState : ScanState :=
  ⟨[], [], some ⟨"test_a", 1, some ("GET /users"), some 1⟩⟩

/-- Witness for `C7_proximity_and_reset`: a status assertion at line 10,
nine lines after the request, is not attributed. -/
theorem C7_proximity_and_reset_witness :
    step "test_users.py" witnessScanState 10 "assert response.status_code == 200" =
      witnessScanState :=
  (C7_proximity_and_reset "test_users.py" "assert response.status_code == 200"
      witnessScanState ⟨"test_a", 1, some ("GET /users"), some 1⟩ 10 rfl
      (by decide) (by decide)).1 1 rfl (by decide)

end Concord
